import Mathlib

/-!
Verification of the KozPhotoEditor core engines (crop-rect algebra, snap,
history, adjustments, export pipeline) against their TypeScript sources.

Numbers are modelled as exact rationals (`ℚ`): the properties under test are
stated by the specification in exact arithmetic, and every code path involved
uses only `+ - * /`, `Math.min/max/abs/round` and comparisons.
`Math.round` (round half toward positive infinity) is `jround`.
JavaScript division by zero differs from `ℚ` (`Infinity` vs `0`), but the
only divisions reached by the functions below are by values that are proved
(or checked by branch conditions) to be nonzero.
-/

namespace Koz

/-- src/core/types.ts: `Vec2 = { x, y }`. -/
structure Vec2 where
  x : ℚ
  y : ℚ
  deriving DecidableEq

/-- src/core/types.ts: `Rect = { x, y, w, h }`. -/
structure Rect where
  x : ℚ
  y : ℚ
  w : ℚ
  h : ℚ
  deriving DecidableEq

/-- src/core/types.ts: `Handle = n | s | e | w | ne | nw | se | sw`. -/
inductive Handle where
  | n | s | e | w | ne | nw | se | sw
  deriving DecidableEq

/-- One of the four edge directions a handle name can mention. -/
inductive Dir where
  | n | s | e | w
  deriving DecidableEq

/-- src/core/types.ts: `CropModifiers` (`aspectRatio?: number | null` becomes
`Option ℚ`). -/
structure CropModifiers where
  square : Bool
  symmetric : Bool
  aspectRatio : Option ℚ
  deriving DecidableEq

/-- src/core/types.ts: `Adjustments = { brightness, contrast, curve }`. -/
structure Adjustments where
  brightness : ℚ
  contrast : ℚ
  curve : ℚ
  deriving DecidableEq

/-- src/core/geometry.ts: `clamp(value, min, max) = Math.min(max, Math.max(min, value))`. -/
def clamp (value lo hi : ℚ) : ℚ := min hi (max lo value)

/-- JavaScript `Math.round`: round half toward positive infinity. -/
def jround (v : ℚ) : ℤ := ⌊v + 1 / 2⌋

/-- src/core/geometry.ts: `rectFromPoints(a, b)`. -/
def rectFromPoints (a b : Vec2) : Rect :=
  { x := min a.x b.x
    y := min a.y b.y
    w := |b.x - a.x|
    h := |b.y - a.y| }

/-- src/core/geometry.ts: `clampRectEdges(rect, bounds)`: each edge clamped
into the bounds independently, width and height floored at 1. -/
def clampRectEdges (rect bounds : Rect) : Rect :=
  let left := max rect.x bounds.x
  let top := max rect.y bounds.y
  let right := min (rect.x + rect.w) (bounds.x + bounds.w)
  let bottom := min (rect.y + rect.h) (bounds.y + bounds.h)
  { x := left, y := top, w := max 1 (right - left), h := max 1 (bottom - top) }

/-- The directions a handle's name contains (`'ne'.includes('n')` etc.). -/
def handleDirs : Handle → List Dir
  | .n => [.n]
  | .s => [.s]
  | .e => [.e]
  | .w => [.w]
  | .ne => [.n, .e]
  | .nw => [.n, .w]
  | .se => [.s, .e]
  | .sw => [.s, .w]

/-- src/core/crop.ts: `handleHas(handle, dir) = handle.includes(dir)`. -/
def handleHas (handle : Handle) (dir : Dir) : Bool :=
  (handleDirs handle).contains dir

/-- Result type of src/core/crop.ts `getActiveEdges`. -/
structure ActiveEdges where
  left : Bool
  right : Bool
  top : Bool
  bottom : Bool
  affectsX : Bool
  affectsY : Bool
  deriving DecidableEq

/-- src/core/crop.ts: `getActiveEdges(handle, symmetric)`. -/
def getActiveEdges (handle : Handle) (symmetric : Bool) : ActiveEdges :=
  let affectsX := handleHas handle .e || handleHas handle .w
  let affectsY := handleHas handle .n || handleHas handle .s
  { left := affectsX && (handleHas handle .w || symmetric)
    right := affectsX && (handleHas handle .e || symmetric)
    top := affectsY && (handleHas handle .n || symmetric)
    bottom := affectsY && (handleHas handle .s || symmetric)
    affectsX := affectsX
    affectsY := affectsY }

/-- The four edge coordinates src/core/crop.ts manipulates. -/
structure Edges where
  left : ℚ
  right : ℚ
  top : ℚ
  bottom : ℚ
  deriving DecidableEq

/-- src/core/crop.ts: `MIN_SIZE = 1`. -/
def MIN_SIZE : ℚ := 1

/-- src/core/crop.ts: `ensureMinSize(left, right, top, bottom, active)`.
The two axes are corrected independently, exactly as the sequential
assignments in the source do. -/
def ensureMinSize (left right top bottom : ℚ) (active : ActiveEdges) : Edges :=
  let lr : ℚ × ℚ :=
    if right - left < MIN_SIZE then
      if active.left && !active.right then (right - MIN_SIZE, right)
      else if active.right && !active.left then (left, left + MIN_SIZE)
      else
        let cx := (left + right) / 2
        (cx - MIN_SIZE / 2, cx + MIN_SIZE / 2)
    else (left, right)
  let tb : ℚ × ℚ :=
    if bottom - top < MIN_SIZE then
      if active.top && !active.bottom then (bottom - MIN_SIZE, bottom)
      else if active.bottom && !active.top then (top, top + MIN_SIZE)
      else
        let cy := (top + bottom) / 2
        (cy - MIN_SIZE / 2, cy + MIN_SIZE / 2)
    else (top, bottom)
  { left := lr.1, right := lr.2, top := tb.1, bottom := tb.2 }

/-- src/core/crop.ts: `applyAspectRatio(left, right, top, bottom, handle,
aspect, symmetric)`. -/
def applyAspectRatio (left right top bottom : ℚ) (handle : Handle)
    (aspect : ℚ) (symmetric : Bool) : Edges :=
  let hasE := handleHas handle .e
  let hasW := handleHas handle .w
  let hasN := handleHas handle .n
  let hasS := handleHas handle .s
  let isCorner := (hasE || hasW) && (hasN || hasS)
  let width := |right - left|
  let height := |bottom - top|
  let wh : ℚ × ℚ :=
    if isCorner then
      if width / height > aspect then (height * aspect, height)
      else (width, width / aspect)
    else if hasE || hasW then (width, width / aspect)
    else if hasN || hasS then (height * aspect, height)
    else (width, height)
  let newW := wh.1
  let newH := wh.2
  if symmetric then
    let cx := (left + right) / 2
    let cy := (top + bottom) / 2
    { left := cx - newW / 2, right := cx + newW / 2
      top := cy - newH / 2, bottom := cy + newH / 2 }
  else
    let nextRight := if hasE && !hasW then left + newW else right
    let nextLeft := if hasW && !hasE then right - newW else left
    let nextBottom := if hasS && !hasN then top + newH else bottom
    let nextTop := if hasN && !hasS then bottom - newH else top
    let tb : ℚ × ℚ :=
      if !isCorner && (hasE || hasW) then
        let cy := (nextTop + nextBottom) / 2
        (cy - newH / 2, cy + newH / 2)
      else (nextTop, nextBottom)
    let lr : ℚ × ℚ :=
      if !isCorner && (hasN || hasS) then
        let cx := (nextLeft + nextRight) / 2
        (cx - newW / 2, cx + newW / 2)
      else (nextLeft, nextRight)
    { left := lr.1, right := lr.2, top := tb.1, bottom := tb.2 }

/-- The delta-application step of src/core/crop.ts `resizeCropRect`
(lines 181-203): the edges named by the handle move by the delta; with
`symmetric` the opposite edge moves by the negated delta as well. Split out
of `resizeCropRect` only to work around a compiler limitation on deeply
nested `let` blocks. -/
def applyDeltaEdges (left right top bottom : ℚ) (handle : Handle) (delta : Vec2)
    (symmetric : Bool) : Edges :=
  if symmetric then
    let right1 := if handleHas handle .e then right + delta.x else right
    let left1 := if handleHas handle .e then left - delta.x else left
    let left2 := if handleHas handle .w then left1 + delta.x else left1
    let right2 := if handleHas handle .w then right1 - delta.x else right1
    let bottom1 := if handleHas handle .s then bottom + delta.y else bottom
    let top1 := if handleHas handle .s then top - delta.y else top
    let top2 := if handleHas handle .n then top1 + delta.y else top1
    let bottom2 := if handleHas handle .n then bottom1 - delta.y else bottom1
    { left := left2, right := right2, top := top2, bottom := bottom2 }
  else
    { left := if handleHas handle .w then left + delta.x else left
      right := if handleHas handle .e then right + delta.x else right
      top := if handleHas handle .n then top + delta.y else top
      bottom := if handleHas handle .s then bottom + delta.y else bottom }

/-- src/core/crop.ts: `resizeCropRect(rect, handle, delta, modifiers, bounds,
allowOutside)`. -/
def resizeCropRect (rect : Rect) (handle : Handle) (delta : Vec2)
    (modifiers : CropModifiers) (bounds : Option Rect) (allowOutside : Bool) : Rect :=
  let left := rect.x
  let right := rect.x + rect.w
  let top := rect.y
  let bottom := rect.y + rect.h
  let symmetric := modifiers.symmetric
  let aspect : Option ℚ := if modifiers.square then some 1 else modifiers.aspectRatio
  let e0 : Edges := applyDeltaEdges left right top bottom handle delta symmetric
  let active := getActiveEdges handle symmetric
  let e1 := ensureMinSize e0.left e0.right e0.top e0.bottom active
  let e2 : Edges :=
    match aspect with
    | some a =>
      if a > 0 then applyAspectRatio e1.left e1.right e1.top e1.bottom handle a symmetric
      else e1
    | none => e1
  let e3 := ensureMinSize e2.left e2.right e2.top e2.bottom active
  let nextRect : Rect :=
    { x := e3.left, y := e3.top, w := e3.right - e3.left, h := e3.bottom - e3.top }
  if !allowOutside then
    match bounds with
    | some b => clampRectEdges nextRect b
    | none => nextRect
  else nextRect

/-- src/core/crop.ts: `rotateRect(rect, rotation, width, height)`; `%` is the
JavaScript truncated remainder (`Int.tmod`). -/
def rotateRect (rect : Rect) (rotation : ℤ) (width height : ℚ) : Rect :=
  let rot := ((rotation.tmod 360) + 360).tmod 360
  if rot = 0 then rect
  else if rot = 90 then
    { x := height - (rect.y + rect.h), y := rect.x, w := rect.h, h := rect.w }
  else if rot = 180 then
    { x := width - (rect.x + rect.w), y := height - (rect.y + rect.h)
      w := rect.w, h := rect.h }
  else if rot = 270 then
    { x := rect.y, y := width - (rect.x + rect.w), w := rect.h, h := rect.w }
  else rect

/-! ### Minimum-size enforcement -/

/-- After `ensureMinSize` both axes span at least `MIN_SIZE = 1`. -/
lemma ensureMinSize_ge (left right top bottom : ℚ) (active : ActiveEdges) :
    1 ≤ (ensureMinSize left right top bottom active).right -
        (ensureMinSize left right top bottom active).left ∧
    1 ≤ (ensureMinSize left right top bottom active).bottom -
        (ensureMinSize left right top bottom active).top := by
  simp only [ensureMinSize, MIN_SIZE]
  constructor <;> (split_ifs <;> simp <;> linarith)

/-- `ensureMinSize` leaves edges already `MIN_SIZE` apart untouched. -/
lemma ensureMinSize_of_ge (left right top bottom : ℚ) (active : ActiveEdges)
    (hx : 1 ≤ right - left) (hy : 1 ≤ bottom - top) :
    ensureMinSize left right top bottom active =
      { left := left, right := right, top := top, bottom := bottom } := by
  simp only [ensureMinSize, MIN_SIZE]
  rw [if_neg (by linarith), if_neg (by linarith)]

/-- C2. For every input rect, handle, delta, modifiers, bounds (including
none) and either value of `allowOutside`, the rect returned by
`resizeCropRect` has `w ≥ 1` and `h ≥ 1`: the final `ensureMinSize` pass
guarantees it, and `clampRectEdges` floors both sizes at 1. -/
theorem resizeCropRect_min_size (rect : Rect) (handle : Handle) (delta : Vec2)
    (modifiers : CropModifiers) (bounds : Option Rect) (allowOutside : Bool) :
    1 ≤ (resizeCropRect rect handle delta modifiers bounds allowOutside).w ∧
    1 ≤ (resizeCropRect rect handle delta modifiers bounds allowOutside).h := by
  simp only [resizeCropRect]
  cases allowOutside with
  | true =>
    simp only [Bool.not_true, Bool.false_eq_true, if_false]
    exact ensureMinSize_ge _ _ _ _ _
  | false =>
    simp only [Bool.not_false, if_true]
    cases bounds with
    | none => exact ensureMinSize_ge _ _ _ _ _
    | some b =>
      simp only [clampRectEdges]
      exact ⟨le_max_left _ _, le_max_left _ _⟩

/-! ### Rotation -/

/-- One 90-degree step of `rotateRect`, by computation. -/
lemma rotateRect_90 (rect : Rect) (width height : ℚ) :
    rotateRect rect 90 width height =
      { x := height - (rect.y + rect.h), y := rect.x, w := rect.h, h := rect.w } := rfl

/-- C7. Four 90-degree applications of `rotateRect`, swapping the canvas
width/height arguments at each step, give back the original rect. -/
theorem rotateRect_four_times (r : Rect) (w h : ℚ) :
    rotateRect (rotateRect (rotateRect (rotateRect r 90 w h) 90 h w) 90 w h) 90 h w = r := by
  obtain ⟨x, y, rw, rh⟩ := r
  simp only [rotateRect_90, Rect.mk.injEq, and_true]
  exact ⟨by ring, by ring⟩

/-! ### rectFromPoints -/

/-- Counterexample to C9 as stated: two points sharing an x-coordinate give a
rect of width 0, not a positive width. -/
theorem rectFromPoints_pos_cex :
    ¬ 0 < (rectFromPoints { x := 0, y := 0 } { x := 0, y := 5 }).w := by
  norm_num [rectFromPoints]

/-- C9 (amended): `rectFromPoints` returns a rect with nonnegative width and
height; the width (resp. height) is positive exactly when the two corner
points differ in x (resp. y). -/
theorem rectFromPoints_nonneg (a b : Vec2) :
    0 ≤ (rectFromPoints a b).w ∧ 0 ≤ (rectFromPoints a b).h ∧
    (0 < (rectFromPoints a b).w ↔ a.x ≠ b.x) ∧
    (0 < (rectFromPoints a b).h ↔ a.y ≠ b.y) := by
  refine ⟨abs_nonneg _, abs_nonneg _, ?_, ?_⟩ <;>
    rw [rectFromPoints] <;>
    simp [abs_pos, sub_ne_zero, ne_comm]

/-! ### Bounds clamping (C3) -/

/-- With `allowOutside = false` and bounds present, `resizeCropRect` is the
unclamped computation followed by `clampRectEdges`. -/
lemma resizeCropRect_false_eq (rect : Rect) (handle : Handle) (delta : Vec2)
    (modifiers : CropModifiers) (b : Rect) :
    resizeCropRect rect handle delta modifiers (some b) false =
      clampRectEdges (resizeCropRect rect handle delta modifiers (some b) true) b := rfl

/-- When the clamped edges still leave at least 1 unit of overlap on each
axis, `clampRectEdges` lands inside the bounds. -/
lemma clampRectEdges_contained (r b : Rect)
    (hx : max r.x b.x + 1 ≤ min (r.x + r.w) (b.x + b.w))
    (hy : max r.y b.y + 1 ≤ min (r.y + r.h) (b.y + b.h)) :
    b.x ≤ (clampRectEdges r b).x ∧
    (clampRectEdges r b).x + (clampRectEdges r b).w ≤ b.x + b.w ∧
    b.y ≤ (clampRectEdges r b).y ∧
    (clampRectEdges r b).y + (clampRectEdges r b).h ≤ b.y + b.h := by
  simp only [clampRectEdges]
  have h1 : (1 : ℚ) ≤ min (r.x + r.w) (b.x + b.w) - max r.x b.x := by linarith
  have h2 : (1 : ℚ) ≤ min (r.y + r.h) (b.y + b.h) - max r.y b.y := by linarith
  refine ⟨le_max_right _ _, ?_, le_max_right _ _, ?_⟩
  · rw [max_eq_right h1]
    have := min_le_right (r.x + r.w) (b.x + b.w)
    linarith
  · rw [max_eq_right h2]
    have := min_le_right (r.y + r.h) (b.y + b.h)
    linarith

/-- Counterexample to C3 as stated: a rect entirely beyond the right/bottom
edges of the bounds is clamped to the minimum 1-unit size but keeps its
out-of-bounds position, so `x + w` exceeds `bounds.x + bounds.w`. -/
theorem resizeCropRect_contained_cex :
    ¬ ((resizeCropRect ⟨300, 300, 10, 10⟩ .se ⟨0, 0⟩ ⟨false, false, none⟩
          (some ⟨0, 0, 200, 120⟩) false).x +
       (resizeCropRect ⟨300, 300, 10, 10⟩ .se ⟨0, 0⟩ ⟨false, false, none⟩
          (some ⟨0, 0, 200, 120⟩) false).w ≤ 0 + 200) := by
  norm_num +decide [resizeCropRect, applyDeltaEdges, getActiveEdges, ensureMinSize,
    applyAspectRatio, clampRectEdges, handleHas, handleDirs, MIN_SIZE]

/-- C3 (amended): with `allowOutside = false` and non-null bounds, the lower
bounds `x ≥ bounds.x` and `y ≥ bounds.y` hold unconditionally (`clampRectEdges`
takes a `max` with the bounds' near edges), and the result is fully contained
in the bounds provided the unclamped resize result overlaps the bounds by at
least the 1-unit minimum size on each axis (without that overlap, the 1-unit
floor of `clampRectEdges` can stick out past the far edge). -/
theorem resizeCropRect_contained (rect : Rect) (handle : Handle) (delta : Vec2)
    (modifiers : CropModifiers) (b : Rect) :
    (b.x ≤ (resizeCropRect rect handle delta modifiers (some b) false).x ∧
      b.y ≤ (resizeCropRect rect handle delta modifiers (some b) false).y) ∧
    (max (resizeCropRect rect handle delta modifiers (some b) true).x b.x + 1 ≤
        min ((resizeCropRect rect handle delta modifiers (some b) true).x +
             (resizeCropRect rect handle delta modifiers (some b) true).w)
            (b.x + b.w) →
      max (resizeCropRect rect handle delta modifiers (some b) true).y b.y + 1 ≤
        min ((resizeCropRect rect handle delta modifiers (some b) true).y +
             (resizeCropRect rect handle delta modifiers (some b) true).h)
            (b.y + b.h) →
      (resizeCropRect rect handle delta modifiers (some b) false).x +
          (resizeCropRect rect handle delta modifiers (some b) false).w ≤ b.x + b.w ∧
        (resizeCropRect rect handle delta modifiers (some b) false).y +
          (resizeCropRect rect handle delta modifiers (some b) false).h ≤ b.y + b.h) := by
  constructor
  · rw [resizeCropRect_false_eq]
    simp only [clampRectEdges]
    exact ⟨le_max_right _ _, le_max_right _ _⟩
  · intro hx hy
    rw [resizeCropRect_false_eq]
    have h := clampRectEdges_contained _ _ hx hy
    exact ⟨h.2.1, h.2.2.2⟩

/-- End-to-end scenario C of the specification, discharging the overlap
hypotheses of `resizeCropRect_contained` at a concrete input: handle `se`,
delta `(500, 500)`, bounds `0 0 200 120`, `allowOutside = false`. -/
theorem resizeCropRect_contained_witness :
    ((0 : ℚ) ≤ (resizeCropRect ⟨10, 10, 100, 50⟩ .se ⟨500, 500⟩ ⟨false, false, none⟩
        (some ⟨0, 0, 200, 120⟩) false).x ∧
      (0 : ℚ) ≤ (resizeCropRect ⟨10, 10, 100, 50⟩ .se ⟨500, 500⟩ ⟨false, false, none⟩
        (some ⟨0, 0, 200, 120⟩) false).y) ∧
    (resizeCropRect ⟨10, 10, 100, 50⟩ .se ⟨500, 500⟩ ⟨false, false, none⟩
        (some ⟨0, 0, 200, 120⟩) false).x +
      (resizeCropRect ⟨10, 10, 100, 50⟩ .se ⟨500, 500⟩ ⟨false, false, none⟩
        (some ⟨0, 0, 200, 120⟩) false).w ≤ 0 + 200 ∧
    (resizeCropRect ⟨10, 10, 100, 50⟩ .se ⟨500, 500⟩ ⟨false, false, none⟩
        (some ⟨0, 0, 200, 120⟩) false).y +
      (resizeCropRect ⟨10, 10, 100, 50⟩ .se ⟨500, 500⟩ ⟨false, false, none⟩
        (some ⟨0, 0, 200, 120⟩) false).h ≤ 0 + 120 :=
  ⟨(resizeCropRect_contained ⟨10, 10, 100, 50⟩ .se ⟨500, 500⟩ ⟨false, false, none⟩
      ⟨0, 0, 200, 120⟩).1,
    (resizeCropRect_contained ⟨10, 10, 100, 50⟩ .se ⟨500, 500⟩ ⟨false, false, none⟩
      ⟨0, 0, 200, 120⟩).2
      (by norm_num +decide [resizeCropRect, applyDeltaEdges, getActiveEdges, ensureMinSize,
        applyAspectRatio, clampRectEdges, handleHas, handleDirs, MIN_SIZE])
      (by norm_num +decide [resizeCropRect, applyDeltaEdges, getActiveEdges, ensureMinSize,
        applyAspectRatio, clampRectEdges, handleHas, handleDirs, MIN_SIZE])⟩

/-! ### Square modifier (C4) -/

/-- With aspect 1 and at least minimum-size input edges, `applyAspectRatio`
makes the two spans equal and keeps them at least 1. -/
lemma applyAspectRatio_square (l r t b : ℚ) (handle : Handle) (symmetric : Bool)
    (hx : 1 ≤ r - l) (hy : 1 ≤ b - t) :
    (applyAspectRatio l r t b handle 1 symmetric).right -
        (applyAspectRatio l r t b handle 1 symmetric).left =
      (applyAspectRatio l r t b handle 1 symmetric).bottom -
        (applyAspectRatio l r t b handle 1 symmetric).top ∧
    1 ≤ (applyAspectRatio l r t b handle 1 symmetric).right -
        (applyAspectRatio l r t b handle 1 symmetric).left := by
  have h1 : |r - l| = r - l := abs_of_nonneg (by linarith)
  have h2 : |b - t| = b - t := abs_of_nonneg (by linarith)
  cases handle <;> cases symmetric <;>
    norm_num +decide [applyAspectRatio, handleHas, handleDirs, h1, h2]
  all_goals try split_ifs
  all_goals try refine ⟨?_, ?_⟩
  all_goals try dsimp only
  all_goals linarith

/-- The aspect-1 stage followed by the second `ensureMinSize` keeps the two
spans equal, whatever the first stage produced, as long as it respected the
minimum size. -/
lemma square_after (e1 : Edges) (handle : Handle) (symmetric : Bool) (active : ActiveEdges)
    (hx : 1 ≤ e1.right - e1.left) (hy : 1 ≤ e1.bottom - e1.top) :
    (ensureMinSize (applyAspectRatio e1.left e1.right e1.top e1.bottom handle 1 symmetric).left
        (applyAspectRatio e1.left e1.right e1.top e1.bottom handle 1 symmetric).right
        (applyAspectRatio e1.left e1.right e1.top e1.bottom handle 1 symmetric).top
        (applyAspectRatio e1.left e1.right e1.top e1.bottom handle 1 symmetric).bottom
        active).right -
      (ensureMinSize (applyAspectRatio e1.left e1.right e1.top e1.bottom handle 1 symmetric).left
        (applyAspectRatio e1.left e1.right e1.top e1.bottom handle 1 symmetric).right
        (applyAspectRatio e1.left e1.right e1.top e1.bottom handle 1 symmetric).top
        (applyAspectRatio e1.left e1.right e1.top e1.bottom handle 1 symmetric).bottom
        active).left =
    (ensureMinSize (applyAspectRatio e1.left e1.right e1.top e1.bottom handle 1 symmetric).left
        (applyAspectRatio e1.left e1.right e1.top e1.bottom handle 1 symmetric).right
        (applyAspectRatio e1.left e1.right e1.top e1.bottom handle 1 symmetric).top
        (applyAspectRatio e1.left e1.right e1.top e1.bottom handle 1 symmetric).bottom
        active).bottom -
      (ensureMinSize (applyAspectRatio e1.left e1.right e1.top e1.bottom handle 1 symmetric).left
        (applyAspectRatio e1.left e1.right e1.top e1.bottom handle 1 symmetric).right
        (applyAspectRatio e1.left e1.right e1.top e1.bottom handle 1 symmetric).top
        (applyAspectRatio e1.left e1.right e1.top e1.bottom handle 1 symmetric).bottom
        active).top := by
  obtain ⟨heq, hge⟩ :=
    applyAspectRatio_square e1.left e1.right e1.top e1.bottom handle symmetric hx hy
  have hge2 : 1 ≤ (applyAspectRatio e1.left e1.right e1.top e1.bottom handle 1 symmetric).bottom -
      (applyAspectRatio e1.left e1.right e1.top e1.bottom handle 1 symmetric).top := by
    rw [← heq]; exact hge
  rw [ensureMinSize_of_ge _ _ _ _ active hge hge2]
  exact heq

/-- Without the bounds clamp, `square := true` forces exactly equal width and
height on the `resizeCropRect` result. -/
lemma resizeCropRect_square_noclamp (rect : Rect) (handle : Handle) (delta : Vec2)
    (symmetric : Bool) (ar : Option ℚ) (bounds : Option Rect) :
    (resizeCropRect rect handle delta ⟨true, symmetric, ar⟩ bounds true).w =
      (resizeCropRect rect handle delta ⟨true, symmetric, ar⟩ bounds true).h := by
  simp only [resizeCropRect, Bool.not_true, Bool.false_eq_true, if_false]
  norm_num
  exact square_after _ handle symmetric _
    (ensureMinSize_ge _ _ _ _ _).1 (ensureMinSize_ge _ _ _ _ _).2

/-- Counterexample to C4 as stated (universally over all calls): clamping a
100-by-100 square into bounds of height 50 yields a 100-by-50 rect, so with
bounds present the rounded sizes differ. -/
theorem resizeCropRect_square_cex :
    jround (resizeCropRect ⟨0, 0, 100, 100⟩ .se ⟨0, 0⟩ ⟨true, false, none⟩
        (some ⟨0, 0, 200, 50⟩) false).w ≠
    jround (resizeCropRect ⟨0, 0, 100, 100⟩ .se ⟨0, 0⟩ ⟨true, false, none⟩
        (some ⟨0, 0, 200, 50⟩) false).h := by
  norm_num +decide [resizeCropRect, applyDeltaEdges, getActiveEdges, ensureMinSize,
    applyAspectRatio, clampRectEdges, handleHas, handleDirs, MIN_SIZE, jround]

/-- C4 (amended): when no bounds clamping applies (`allowOutside = true` or
null bounds), `square := true` gives a result with `w = h` exactly, hence
`round w = round h`, for every rect, handle, delta, symmetric flag and
aspect-ratio setting. The bounds clamp can break squareness. -/
theorem resizeCropRect_square_eq (rect : Rect) (handle : Handle) (delta : Vec2)
    (symmetric : Bool) (ar : Option ℚ) (bounds : Option Rect) (allowOutside : Bool)
    (hnc : allowOutside = true ∨ bounds = none) :
    (resizeCropRect rect handle delta ⟨true, symmetric, ar⟩ bounds allowOutside).w =
      (resizeCropRect rect handle delta ⟨true, symmetric, ar⟩ bounds allowOutside).h ∧
    jround (resizeCropRect rect handle delta ⟨true, symmetric, ar⟩ bounds allowOutside).w =
      jround (resizeCropRect rect handle delta ⟨true, symmetric, ar⟩ bounds allowOutside).h := by
  have hsame : resizeCropRect rect handle delta ⟨true, symmetric, ar⟩ bounds allowOutside =
      resizeCropRect rect handle delta ⟨true, symmetric, ar⟩ bounds true := by
    rcases hnc with h | h
    · rw [h]
    · subst h; cases allowOutside <;> rfl
  rw [hsame]
  have h := resizeCropRect_square_noclamp rect handle delta symmetric ar bounds
  exact ⟨h, by rw [h]⟩

/-- End-to-end scenario A of the specification: rect `10 10 100 50`, handle
`se`, delta `(30, 5)`, `square := true`, no bounds. -/
theorem resizeCropRect_square_eq_witness :
    (resizeCropRect ⟨10, 10, 100, 50⟩ .se ⟨30, 5⟩ ⟨true, false, none⟩ none false).w =
      (resizeCropRect ⟨10, 10, 100, 50⟩ .se ⟨30, 5⟩ ⟨true, false, none⟩ none false).h ∧
    jround (resizeCropRect ⟨10, 10, 100, 50⟩ .se ⟨30, 5⟩ ⟨true, false, none⟩ none false).w =
      jround (resizeCropRect ⟨10, 10, 100, 50⟩ .se ⟨30, 5⟩ ⟨true, false, none⟩ none false).h :=
  resizeCropRect_square_eq ⟨10, 10, 100, 50⟩ .se ⟨30, 5⟩ false none none false (Or.inr rfl)

/-! ### Symmetric modifier (C5) -/

/-- With the symmetric flag, the delta stage moves opposite edges by opposite
amounts, so each axis's edge sum is unchanged. -/
lemma applyDeltaEdges_symm_sum (left right top bottom : ℚ) (handle : Handle)
    (delta : Vec2) :
    (applyDeltaEdges left right top bottom handle delta true).left +
        (applyDeltaEdges left right top bottom handle delta true).right =
      left + right ∧
    (applyDeltaEdges left right top bottom handle delta true).top +
        (applyDeltaEdges left right top bottom handle delta true).bottom =
      top + bottom := by
  cases handle <;>
    norm_num +decide [applyDeltaEdges, handleHas, handleDirs]

/-- When each axis has its two edges equally active, `ensureMinSize` expands
around the centre and preserves both edge sums. -/
lemma ensureMinSize_symm_sum (left right top bottom : ℚ) (active : ActiveEdges)
    (hlr : active.left = active.right) (htb : active.top = active.bottom) :
    (ensureMinSize left right top bottom active).left +
        (ensureMinSize left right top bottom active).right =
      left + right ∧
    (ensureMinSize left right top bottom active).top +
        (ensureMinSize left right top bottom active).bottom =
      top + bottom := by
  have h1 : (active.left && !active.right) = false := by
    rw [hlr]; cases active.right <;> rfl
  have h2 : (active.right && !active.left) = false := by
    rw [← hlr]; cases active.left <;> rfl
  have h3 : (active.top && !active.bottom) = false := by
    rw [htb]; cases active.bottom <;> rfl
  have h4 : (active.bottom && !active.top) = false := by
    rw [← htb]; cases active.top <;> rfl
  rw [ensureMinSize]
  simp only [h1, h2, h3, h4, Bool.false_eq_true, if_false]
  constructor <;> (dsimp only; split_ifs <;> try dsimp only) <;> ring

/-- The symmetric branch of `applyAspectRatio` recentres on the input centre,
preserving both edge sums for every aspect. -/
lemma applyAspectRatio_symm_sum (left right top bottom : ℚ) (handle : Handle)
    (aspect : ℚ) :
    (applyAspectRatio left right top bottom handle aspect true).left +
        (applyAspectRatio left right top bottom handle aspect true).right =
      left + right ∧
    (applyAspectRatio left right top bottom handle aspect true).top +
        (applyAspectRatio left right top bottom handle aspect true).bottom =
      top + bottom := by
  rw [applyAspectRatio]
  norm_num
  try constructor

/-- With `symmetric := true` both active flags agree on each axis. -/
lemma getActiveEdges_symm (handle : Handle) :
    (getActiveEdges handle true).left = (getActiveEdges handle true).right ∧
    (getActiveEdges handle true).top = (getActiveEdges handle true).bottom := by
  cases handle <;> exact ⟨rfl, rfl⟩

/-- Sums of opposite edges survive the whole symmetric resize pipeline
(min-size pass, optional aspect stage, second min-size pass). -/
lemma symm_sum_pipeline (e0 : Edges) (handle : Handle) (aspect : Option ℚ)
    (active : ActiveEdges)
    (haLR : active.left = active.right) (haTB : active.top = active.bottom) :
    (ensureMinSize
        (match aspect with
          | some a =>
            if a > 0 then
              applyAspectRatio (ensureMinSize e0.left e0.right e0.top e0.bottom active).left
                (ensureMinSize e0.left e0.right e0.top e0.bottom active).right
                (ensureMinSize e0.left e0.right e0.top e0.bottom active).top
                (ensureMinSize e0.left e0.right e0.top e0.bottom active).bottom handle a true
            else ensureMinSize e0.left e0.right e0.top e0.bottom active
          | none => ensureMinSize e0.left e0.right e0.top e0.bottom active : Edges).left
        (match aspect with
          | some a =>
            if a > 0 then
              applyAspectRatio (ensureMinSize e0.left e0.right e0.top e0.bottom active).left
                (ensureMinSize e0.left e0.right e0.top e0.bottom active).right
                (ensureMinSize e0.left e0.right e0.top e0.bottom active).top
                (ensureMinSize e0.left e0.right e0.top e0.bottom active).bottom handle a true
            else ensureMinSize e0.left e0.right e0.top e0.bottom active
          | none => ensureMinSize e0.left e0.right e0.top e0.bottom active : Edges).right
        (match aspect with
          | some a =>
            if a > 0 then
              applyAspectRatio (ensureMinSize e0.left e0.right e0.top e0.bottom active).left
                (ensureMinSize e0.left e0.right e0.top e0.bottom active).right
                (ensureMinSize e0.left e0.right e0.top e0.bottom active).top
                (ensureMinSize e0.left e0.right e0.top e0.bottom active).bottom handle a true
            else ensureMinSize e0.left e0.right e0.top e0.bottom active
          | none => ensureMinSize e0.left e0.right e0.top e0.bottom active : Edges).top
        (match aspect with
          | some a =>
            if a > 0 then
              applyAspectRatio (ensureMinSize e0.left e0.right e0.top e0.bottom active).left
                (ensureMinSize e0.left e0.right e0.top e0.bottom active).right
                (ensureMinSize e0.left e0.right e0.top e0.bottom active).top
                (ensureMinSize e0.left e0.right e0.top e0.bottom active).bottom handle a true
            else ensureMinSize e0.left e0.right e0.top e0.bottom active
          | none => ensureMinSize e0.left e0.right e0.top e0.bottom active : Edges).bottom
        active).left +
      (ensureMinSize
        (match aspect with
          | some a =>
            if a > 0 then
              applyAspectRatio (ensureMinSize e0.left e0.right e0.top e0.bottom active).left
                (ensureMinSize e0.left e0.right e0.top e0.bottom active).right
                (ensureMinSize e0.left e0.right e0.top e0.bottom active).top
                (ensureMinSize e0.left e0.right e0.top e0.bottom active).bottom handle a true
            else ensureMinSize e0.left e0.right e0.top e0.bottom active
          | none => ensureMinSize e0.left e0.right e0.top e0.bottom active : Edges).left
        (match aspect with
          | some a =>
            if a > 0 then
              applyAspectRatio (ensureMinSize e0.left e0.right e0.top e0.bottom active).left
                (ensureMinSize e0.left e0.right e0.top e0.bottom active).right
                (ensureMinSize e0.left e0.right e0.top e0.bottom active).top
                (ensureMinSize e0.left e0.right e0.top e0.bottom active).bottom handle a true
            else ensureMinSize e0.left e0.right e0.top e0.bottom active
          | none => ensureMinSize e0.left e0.right e0.top e0.bottom active : Edges).right
        (match aspect with
          | some a =>
            if a > 0 then
              applyAspectRatio (ensureMinSize e0.left e0.right e0.top e0.bottom active).left
                (ensureMinSize e0.left e0.right e0.top e0.bottom active).right
                (ensureMinSize e0.left e0.right e0.top e0.bottom active).top
                (ensureMinSize e0.left e0.right e0.top e0.bottom active).bottom handle a true
            else ensureMinSize e0.left e0.right e0.top e0.bottom active
          | none => ensureMinSize e0.left e0.right e0.top e0.bottom active : Edges).top
        (match aspect with
          | some a =>
            if a > 0 then
              applyAspectRatio (ensureMinSize e0.left e0.right e0.top e0.bottom active).left
                (ensureMinSize e0.left e0.right e0.top e0.bottom active).right
                (ensureMinSize e0.left e0.right e0.top e0.bottom active).top
                (ensureMinSize e0.left e0.right e0.top e0.bottom active).bottom handle a true
            else ensureMinSize e0.left e0.right e0.top e0.bottom active
          | none => ensureMinSize e0.left e0.right e0.top e0.bottom active : Edges).bottom
        active).right = e0.left + e0.right ∧
    (ensureMinSize
        (match aspect with
          | some a =>
            if a > 0 then
              applyAspectRatio (ensureMinSize e0.left e0.right e0.top e0.bottom active).left
                (ensureMinSize e0.left e0.right e0.top e0.bottom active).right
                (ensureMinSize e0.left e0.right e0.top e0.bottom active).top
                (ensureMinSize e0.left e0.right e0.top e0.bottom active).bottom handle a true
            else ensureMinSize e0.left e0.right e0.top e0.bottom active
          | none => ensureMinSize e0.left e0.right e0.top e0.bottom active : Edges).left
        (match aspect with
          | some a =>
            if a > 0 then
              applyAspectRatio (ensureMinSize e0.left e0.right e0.top e0.bottom active).left
                (ensureMinSize e0.left e0.right e0.top e0.bottom active).right
                (ensureMinSize e0.left e0.right e0.top e0.bottom active).top
                (ensureMinSize e0.left e0.right e0.top e0.bottom active).bottom handle a true
            else ensureMinSize e0.left e0.right e0.top e0.bottom active
          | none => ensureMinSize e0.left e0.right e0.top e0.bottom active : Edges).right
        (match aspect with
          | some a =>
            if a > 0 then
              applyAspectRatio (ensureMinSize e0.left e0.right e0.top e0.bottom active).left
                (ensureMinSize e0.left e0.right e0.top e0.bottom active).right
                (ensureMinSize e0.left e0.right e0.top e0.bottom active).top
                (ensureMinSize e0.left e0.right e0.top e0.bottom active).bottom handle a true
            else ensureMinSize e0.left e0.right e0.top e0.bottom active
          | none => ensureMinSize e0.left e0.right e0.top e0.bottom active : Edges).top
        (match aspect with
          | some a =>
            if a > 0 then
              applyAspectRatio (ensureMinSize e0.left e0.right e0.top e0.bottom active).left
                (ensureMinSize e0.left e0.right e0.top e0.bottom active).right
                (ensureMinSize e0.left e0.right e0.top e0.bottom active).top
                (ensureMinSize e0.left e0.right e0.top e0.bottom active).bottom handle a true
            else ensureMinSize e0.left e0.right e0.top e0.bottom active
          | none => ensureMinSize e0.left e0.right e0.top e0.bottom active : Edges).bottom
        active).top +
      (ensureMinSize
        (match aspect with
          | some a =>
            if a > 0 then
              applyAspectRatio (ensureMinSize e0.left e0.right e0.top e0.bottom active).left
                (ensureMinSize e0.left e0.right e0.top e0.bottom active).right
                (ensureMinSize e0.left e0.right e0.top e0.bottom active).top
                (ensureMinSize e0.left e0.right e0.top e0.bottom active).bottom handle a true
            else ensureMinSize e0.left e0.right e0.top e0.bottom active
          | none => ensureMinSize e0.left e0.right e0.top e0.bottom active : Edges).left
        (match aspect with
          | some a =>
            if a > 0 then
              applyAspectRatio (ensureMinSize e0.left e0.right e0.top e0.bottom active).left
                (ensureMinSize e0.left e0.right e0.top e0.bottom active).right
                (ensureMinSize e0.left e0.right e0.top e0.bottom active).top
                (ensureMinSize e0.left e0.right e0.top e0.bottom active).bottom handle a true
            else ensureMinSize e0.left e0.right e0.top e0.bottom active
          | none => ensureMinSize e0.left e0.right e0.top e0.bottom active : Edges).right
        (match aspect with
          | some a =>
            if a > 0 then
              applyAspectRatio (ensureMinSize e0.left e0.right e0.top e0.bottom active).left
                (ensureMinSize e0.left e0.right e0.top e0.bottom active).right
                (ensureMinSize e0.left e0.right e0.top e0.bottom active).top
                (ensureMinSize e0.left e0.right e0.top e0.bottom active).bottom handle a true
            else ensureMinSize e0.left e0.right e0.top e0.bottom active
          | none => ensureMinSize e0.left e0.right e0.top e0.bottom active : Edges).top
        (match aspect with
          | some a =>
            if a > 0 then
              applyAspectRatio (ensureMinSize e0.left e0.right e0.top e0.bottom active).left
                (ensureMinSize e0.left e0.right e0.top e0.bottom active).right
                (ensureMinSize e0.left e0.right e0.top e0.bottom active).top
                (ensureMinSize e0.left e0.right e0.top e0.bottom active).bottom handle a true
            else ensureMinSize e0.left e0.right e0.top e0.bottom active
          | none => ensureMinSize e0.left e0.right e0.top e0.bottom active : Edges).bottom
        active).bottom = e0.top + e0.bottom := by
  obtain ⟨h1x, h1y⟩ :=
    ensureMinSize_symm_sum e0.left e0.right e0.top e0.bottom active haLR haTB
  rcases aspect with _ | a
  · obtain ⟨h2x, h2y⟩ := ensureMinSize_symm_sum
      (ensureMinSize e0.left e0.right e0.top e0.bottom active).left
      (ensureMinSize e0.left e0.right e0.top e0.bottom active).right
      (ensureMinSize e0.left e0.right e0.top e0.bottom active).top
      (ensureMinSize e0.left e0.right e0.top e0.bottom active).bottom active haLR haTB
    constructor <;> dsimp only <;> linarith
  · dsimp only
    split_ifs with hpos
    · obtain ⟨h2x, h2y⟩ := applyAspectRatio_symm_sum
        (ensureMinSize e0.left e0.right e0.top e0.bottom active).left
        (ensureMinSize e0.left e0.right e0.top e0.bottom active).right
        (ensureMinSize e0.left e0.right e0.top e0.bottom active).top
        (ensureMinSize e0.left e0.right e0.top e0.bottom active).bottom handle a
      obtain ⟨h3x, h3y⟩ := ensureMinSize_symm_sum
        (applyAspectRatio (ensureMinSize e0.left e0.right e0.top e0.bottom active).left
          (ensureMinSize e0.left e0.right e0.top e0.bottom active).right
          (ensureMinSize e0.left e0.right e0.top e0.bottom active).top
          (ensureMinSize e0.left e0.right e0.top e0.bottom active).bottom handle a true).left
        (applyAspectRatio (ensureMinSize e0.left e0.right e0.top e0.bottom active).left
          (ensureMinSize e0.left e0.right e0.top e0.bottom active).right
          (ensureMinSize e0.left e0.right e0.top e0.bottom active).top
          (ensureMinSize e0.left e0.right e0.top e0.bottom active).bottom handle a true).right
        (applyAspectRatio (ensureMinSize e0.left e0.right e0.top e0.bottom active).left
          (ensureMinSize e0.left e0.right e0.top e0.bottom active).right
          (ensureMinSize e0.left e0.right e0.top e0.bottom active).top
          (ensureMinSize e0.left e0.right e0.top e0.bottom active).bottom handle a true).top
        (applyAspectRatio (ensureMinSize e0.left e0.right e0.top e0.bottom active).left
          (ensureMinSize e0.left e0.right e0.top e0.bottom active).right
          (ensureMinSize e0.left e0.right e0.top e0.bottom active).top
          (ensureMinSize e0.left e0.right e0.top e0.bottom active).bottom handle a true).bottom
        active haLR haTB
      constructor <;> linarith
    · obtain ⟨h2x, h2y⟩ := ensureMinSize_symm_sum
        (ensureMinSize e0.left e0.right e0.top e0.bottom active).left
        (ensureMinSize e0.left e0.right e0.top e0.bottom active).right
        (ensureMinSize e0.left e0.right e0.top e0.bottom active).top
        (ensureMinSize e0.left e0.right e0.top e0.bottom active).bottom active haLR haTB
      constructor <;> linarith

/-- Without the bounds clamp, the symmetric resize keeps the input centre. -/
lemma resizeCropRect_symm_noclamp (rect : Rect) (handle : Handle) (delta : Vec2)
    (square : Bool) (ar : Option ℚ) (bounds : Option Rect) :
    (resizeCropRect rect handle delta ⟨square, true, ar⟩ bounds true).x +
        (resizeCropRect rect handle delta ⟨square, true, ar⟩ bounds true).w / 2 =
      rect.x + rect.w / 2 ∧
    (resizeCropRect rect handle delta ⟨square, true, ar⟩ bounds true).y +
        (resizeCropRect rect handle delta ⟨square, true, ar⟩ bounds true).h / 2 =
      rect.y + rect.h / 2 := by
  obtain ⟨haLR, haTB⟩ := getActiveEdges_symm handle
  obtain ⟨h0x, h0y⟩ := applyDeltaEdges_symm_sum rect.x (rect.x + rect.w) rect.y
    (rect.y + rect.h) handle delta
  obtain ⟨hpx, hpy⟩ := symm_sum_pipeline
    (applyDeltaEdges rect.x (rect.x + rect.w) rect.y (rect.y + rect.h) handle delta true)
    handle (if square then some 1 else ar) (getActiveEdges handle true) haLR haTB
  simp only [resizeCropRect, Bool.not_true, Bool.false_eq_true, if_false]
  constructor <;> dsimp only <;> linarith

/-- Counterexample to C5 as stated (universally over all calls): a symmetric
east-drag pushed against the bounds is clamped back asymmetrically, moving
the centre from x = 50 to x = 100. -/
theorem resizeCropRect_symmetric_cex :
    ¬ ((resizeCropRect ⟨0, 0, 100, 100⟩ .e ⟨100, 0⟩ ⟨false, true, none⟩
          (some ⟨0, 0, 200, 120⟩) false).x +
       (resizeCropRect ⟨0, 0, 100, 100⟩ .e ⟨100, 0⟩ ⟨false, true, none⟩
          (some ⟨0, 0, 200, 120⟩) false).w / 2 = 0 + 100 / 2) := by
  norm_num +decide [resizeCropRect, applyDeltaEdges, getActiveEdges, ensureMinSize,
    applyAspectRatio, clampRectEdges, handleHas, handleDirs, MIN_SIZE]

/-- C5 (amended): when no bounds clamping applies (`allowOutside = true` or
null bounds), `symmetric := true` keeps the centre of the result exactly
equal to the centre of the input rect, for every handle, delta, square flag
and aspect-ratio setting. The bounds clamp can move the centre. -/
theorem resizeCropRect_symmetric_center (rect : Rect) (handle : Handle) (delta : Vec2)
    (square : Bool) (ar : Option ℚ) (bounds : Option Rect) (allowOutside : Bool)
    (hnc : allowOutside = true ∨ bounds = none) :
    (resizeCropRect rect handle delta ⟨square, true, ar⟩ bounds allowOutside).x +
        (resizeCropRect rect handle delta ⟨square, true, ar⟩ bounds allowOutside).w / 2 =
      rect.x + rect.w / 2 ∧
    (resizeCropRect rect handle delta ⟨square, true, ar⟩ bounds allowOutside).y +
        (resizeCropRect rect handle delta ⟨square, true, ar⟩ bounds allowOutside).h / 2 =
      rect.y + rect.h / 2 := by
  have hsame : resizeCropRect rect handle delta ⟨square, true, ar⟩ bounds allowOutside =
      resizeCropRect rect handle delta ⟨square, true, ar⟩ bounds true := by
    rcases hnc with h | h
    · rw [h]
    · subst h; cases allowOutside <;> rfl
  rw [hsame]
  exact resizeCropRect_symm_noclamp rect handle delta square ar bounds

/-- End-to-end scenario B of the specification: rect `10 10 100 50`, handle
`e`, delta `(10, 0)`, `symmetric := true`, no bounds: the centre stays at
`(60, 35)` and the width grows to 120. -/
theorem resizeCropRect_symmetric_center_witness :
    ((resizeCropRect ⟨10, 10, 100, 50⟩ .e ⟨10, 0⟩ ⟨false, true, none⟩ none false).x +
        (resizeCropRect ⟨10, 10, 100, 50⟩ .e ⟨10, 0⟩ ⟨false, true, none⟩ none false).w / 2 =
      (10 : ℚ) + 100 / 2 ∧
    (resizeCropRect ⟨10, 10, 100, 50⟩ .e ⟨10, 0⟩ ⟨false, true, none⟩ none false).y +
        (resizeCropRect ⟨10, 10, 100, 50⟩ .e ⟨10, 0⟩ ⟨false, true, none⟩ none false).h / 2 =
      (10 : ℚ) + 50 / 2) ∧
    (resizeCropRect ⟨10, 10, 100, 50⟩ .e ⟨10, 0⟩ ⟨false, true, none⟩ none false).w = 120 :=
  ⟨resizeCropRect_symmetric_center ⟨10, 10, 100, 50⟩ .e ⟨10, 0⟩ false none none false
      (Or.inr rfl),
    by norm_num +decide [resizeCropRect, applyDeltaEdges, getActiveEdges, ensureMinSize,
      applyAspectRatio, clampRectEdges, handleHas, handleDirs, MIN_SIZE]⟩

/-! ### History engine (C6), from src/core/history.ts -/

/-- src/core/types.ts: `HistoryState<T> = { past, present, future }`. -/
structure HistoryState (T : Type) where
  past : List T
  present : T
  future : List T
  deriving DecidableEq

/-- src/core/history.ts: `createHistory(present)`. -/
def createHistory {T : Type} (present : T) : HistoryState T :=
  { past := [], present := present, future := [] }

/-- src/core/history.ts: `pushHistory(state, present)`. -/
def pushHistory {T : Type} (state : HistoryState T) (present : T) : HistoryState T :=
  { past := state.past ++ [state.present], present := present, future := [] }

/-- src/core/history.ts: `undoHistory(state)`; `past[past.length - 1]` and
`past.slice(0, -1)` become `getLast?` and `dropLast`, and the
`past.length === 0` early return is the `none` case. -/
def undoHistory {T : Type} (state : HistoryState T) : HistoryState T :=
  match state.past.getLast? with
  | none => state
  | some previous =>
    { past := state.past.dropLast
      present := previous
      future := state.present :: state.future }

/-- src/core/history.ts: `redoHistory(state)`; destructuring
`[next, ...future]` is the `cons` case, the `future.length === 0` early
return the `nil` case. -/
def redoHistory {T : Type} (state : HistoryState T) : HistoryState T :=
  match state.future with
  | [] => state
  | next :: future =>
    { past := state.past ++ [state.present], present := next, future := future }

/-- A sequence of committed edits applied in order. -/
def pushAll {T : Type} (state : HistoryState T) (vs : List T) : HistoryState T :=
  vs.foldl pushHistory state

/-- `n` undo calls. -/
def undoN {T : Type} : ℕ → HistoryState T → HistoryState T
  | 0, s => s
  | n + 1, s => undoN n (undoHistory s)

/-- `n` redo calls. -/
def redoN {T : Type} : ℕ → HistoryState T → HistoryState T
  | 0, s => s
  | n + 1, s => redoN n (redoHistory s)

/-- The history holding the timeline `vals` with the cursor at position `i`:
everything before `i` is past, `vals[i]` is present, the rest is future. -/
def histAt {T : Type} (vals : List T) (d : T) (i : ℕ) : HistoryState T :=
  { past := vals.take i, present := vals.getD i d, future := vals.drop (i + 1) }

/-- Taking one more element appends the element at the cut. -/
lemma take_succ_getD {T : Type} :
    ∀ (L : List T) (i : ℕ) (d : T), i < L.length →
      L.take (i + 1) = L.take i ++ [L.getD i d]
  | [], i, d, h => by simp at h
  | a :: L, 0, d, h => by simp
  | a :: L, i + 1, d, h => by
    have ih := take_succ_getD L i d (by simpa using h)
    simp [ih]

/-- Dropping splits off the element at the cut when it exists. -/
lemma drop_getD_cons {T : Type} :
    ∀ (L : List T) (i : ℕ) (d : T), i < L.length →
      L.drop i = L.getD i d :: L.drop (i + 1)
  | [], i, d, h => by simp at h
  | a :: L, 0, d, h => by simp
  | a :: L, i + 1, d, h => by
    have ih := drop_getD_cons L i d (by simpa using h)
    simpa using ih

/-- `getD` at the junction of an append reads the first appended element. -/
lemma getD_append_cons {T : Type} :
    ∀ (L M : List T) (v d : T), (L ++ v :: M).getD L.length d = v
  | [], M, v, d => rfl
  | a :: L, M, v, d => by
    have ih := getD_append_cons L M v d
    simpa using ih

/-- A committed edit appends the present value to the timeline and moves the
cursor onto the new value. -/
lemma pushHistory_histAt {T : Type} (L : List T) (d v : T) (i : ℕ)
    (h : i + 1 = L.length) :
    pushHistory (histAt L d i) v = histAt (L ++ [v]) d (i + 1) := by
  unfold pushHistory histAt
  have hi : i < L.length := by omega
  have htake : L.take i ++ [L.getD i d] = L.take (i + 1) := (take_succ_getD L i d hi).symm
  have htake2 : (L ++ [v]).take (i + 1) = L := by
    rw [h, List.take_left]
  have hpresent : (L ++ [v]).getD (i + 1) d = v := by
    rw [h]
    exact getD_append_cons L [] v d
  have hdrop : (L ++ [v]).drop (i + 1 + 1) = [] := by
    apply List.drop_eq_nil_of_le
    simp
    omega
  rw [htake, htake2, hpresent, hdrop, h, List.take_length]

/-- Undo moves the cursor one step back without touching the timeline. -/
lemma undoHistory_histAt {T : Type} (L : List T) (d : T) (i : ℕ)
    (h0 : 0 < i) (h : i < L.length) :
    undoHistory (histAt L d i) = histAt L d (i - 1) := by
  obtain ⟨j, rfl⟩ : ∃ j, i = j + 1 := ⟨i - 1, by omega⟩
  have hj : j < L.length := by omega
  unfold undoHistory histAt
  rw [take_succ_getD L j d hj, List.getLast?_concat]
  simp only [List.dropLast_concat, Nat.add_sub_cancel]
  rw [← drop_getD_cons L (j + 1) d h]

/-- Redo moves the cursor one step forward without touching the timeline. -/
lemma redoHistory_histAt {T : Type} (L : List T) (d : T) (i : ℕ)
    (h : i + 1 < L.length) :
    redoHistory (histAt L d i) = histAt L d (i + 1) := by
  unfold redoHistory histAt
  rw [drop_getD_cons L (i + 1) d h]
  dsimp only
  rw [← take_succ_getD L i d (by omega)]

/-- `N` undos step the cursor back `N` places. -/
lemma undoN_histAt {T : Type} (L : List T) (d : T) :
    ∀ (N i : ℕ), N ≤ i → i < L.length →
      undoN N (histAt L d i) = histAt L d (i - N) := by
  intro N
  induction N with
  | zero => intro i _ _; simp [undoN]
  | succ n ih =>
    intro i hN hi
    rw [show undoN (n + 1) (histAt L d i) = undoN n (undoHistory (histAt L d i)) from rfl,
      undoHistory_histAt L d i (by omega) hi, ih (i - 1) (by omega) (by omega)]
    congr 1
    omega

/-- `M` redos step the cursor forward `M` places. -/
lemma redoN_histAt {T : Type} (L : List T) (d : T) :
    ∀ (M i : ℕ), i + M < L.length →
      redoN M (histAt L d i) = histAt L d (i + M) := by
  intro M
  induction M with
  | zero => intro i _; simp [redoN]
  | succ m ih =>
    intro i h
    rw [show redoN (m + 1) (histAt L d i) = redoN m (redoHistory (histAt L d i)) from rfl,
      redoHistory_histAt L d i (by omega), ih (i + 1) (by omega)]
    congr 1
    omega

/-- Pushing a batch of edits extends the timeline and puts the cursor at its
end. -/
lemma pushAll_histAt {T : Type} (vs : List T) :
    ∀ (L : List T) (d : T) (i : ℕ), i + 1 = L.length →
      pushAll (histAt L d i) vs = histAt (L ++ vs) d (i + vs.length) := by
  induction vs with
  | nil => intro L d i h; simp [pushAll, histAt]
  | cons v vs ih =>
    intro L d i h
    rw [show pushAll (histAt L d i) (v :: vs) =
        pushAll (pushHistory (histAt L d i) v) vs from rfl,
      pushHistory_histAt L d v i h,
      ih (L ++ [v]) d (i + 1) (by simp [← h])]
    rw [List.append_assoc]
    simp only [List.cons_append, List.nil_append, List.length_cons]
    congr 1
    omega

/-- C6. Starting from `createHistory v0` and pushing the values `vs` in
order: `N` undos (`N` at most the number of pushes) land on the value that
was present `N` commits earlier; `M ≤ N` subsequent redos restore forward to
the value `N - M` commits back; undo on an empty past and redo on an empty
future return their input unchanged. -/
theorem history_undo_redo {T : Type} (v0 : T) (vs : List T) (N M : ℕ)
    (s s2 : HistoryState T)
    (hN : N ≤ vs.length) (hM : M ≤ N)
    (hpast : s.past = []) (hfut : s2.future = []) :
    (undoN N (pushAll (createHistory v0) vs)).present =
        (v0 :: vs).getD (vs.length - N) v0 ∧
    (redoN M (undoN N (pushAll (createHistory v0) vs))).present =
        (v0 :: vs).getD (vs.length - N + M) v0 ∧
    undoHistory s = s ∧ redoHistory s2 = s2 := by
  have hpush : pushAll (createHistory v0) vs = histAt (v0 :: vs) v0 vs.length := by
    have h := pushAll_histAt vs [v0] v0 0 (by simp)
    simpa [createHistory, histAt] using h
  have hlen : vs.length < (v0 :: vs).length := by simp
  have hundo : undoN N (pushAll (createHistory v0) vs) =
      histAt (v0 :: vs) v0 (vs.length - N) := by
    rw [hpush]
    exact undoN_histAt _ _ N vs.length hN hlen
  refine ⟨by rw [hundo]; rfl, ?_, ?_, ?_⟩
  · rw [hundo, redoN_histAt _ _ M (vs.length - N) (by simp; omega)]
    rfl
  · rw [undoHistory, hpast]
    rfl
  · rw [redoHistory, hfut]

/-- Concrete run of `history_undo_redo`: timeline `0,1,2,3`, two undos land
on 1, one redo lands back on 2; a state with empty past survives undo and a
state with empty future survives redo. -/
theorem history_undo_redo_witness :
    ((undoN 2 (pushAll (createHistory (0 : ℕ)) [1, 2, 3])).present =
        ((0 : ℕ) :: [1, 2, 3]).getD ([1, 2, 3].length - 2) 0 ∧
      (redoN 1 (undoN 2 (pushAll (createHistory (0 : ℕ)) [1, 2, 3]))).present =
        ((0 : ℕ) :: [1, 2, 3]).getD ([1, 2, 3].length - 2 + 1) 0 ∧
      undoHistory ⟨[], (5 : ℕ), [7]⟩ = ⟨[], (5 : ℕ), [7]⟩ ∧
      redoHistory ⟨[3], (5 : ℕ), []⟩ = ⟨[3], (5 : ℕ), []⟩) ∧
    (undoN 2 (pushAll (createHistory (0 : ℕ)) [1, 2, 3])).present = 1 ∧
    (redoN 1 (undoN 2 (pushAll (createHistory (0 : ℕ)) [1, 2, 3]))).present = 2 :=
  ⟨history_undo_redo 0 [1, 2, 3] 2 1 ⟨[], 5, [7]⟩ ⟨[3], 5, []⟩ (by decide) (by decide)
      rfl rfl,
    by decide, by decide⟩

/-! ### Snap engine (C10), from src/ui/snap.ts -/

/-- Snap guide kinds: image edges, centre, thirds. -/
inductive GuideKind where
  | edge | center | third
  deriving DecidableEq

/-- Guide axis tag. -/
inductive Axis where
  | x | y
  deriving DecidableEq

/-- src/ui/snap.ts: `Guide = { axis, value, kind }`. -/
structure Guide where
  axis : Axis
  value : ℚ
  kind : GuideKind
  deriving DecidableEq

/-- src/ui/snap.ts: `SnapResult = { rect, guides }`. -/
structure SnapResult where
  rect : Rect
  guides : List Guide
  deriving DecidableEq

/-- A candidate snap target: a fraction of the bounds with its guide kind. -/
structure SnapTarget where
  value : ℚ
  kind : GuideKind
  deriving DecidableEq

/-- A candidate rect position under snapping, tagged with its key string. -/
structure SnapPos where
  key : String
  value : ℚ
  deriving DecidableEq

/-- The best snap found so far: the moved key, its delta and the kind. -/
structure SnapBest where
  key : String
  delta : ℚ
  kind : GuideKind
  deriving DecidableEq

/-- Snap mode: translating the whole rect or dragging one handle. -/
inductive SnapMode where
  | move | resize
  deriving DecidableEq

/-- src/ui/snap.ts: `makeTargets(size, offset)`: both edges, both thirds and
the centre of the bounds, in source order. -/
def makeTargets (size offset : ℚ) : List SnapTarget :=
  [⟨offset, .edge⟩, ⟨offset + size / 3, .third⟩, ⟨offset + 2 * size / 3, .third⟩,
    ⟨offset + size / 2, .center⟩, ⟨offset + size, .edge⟩]

/-- One step of the double loop in src/ui/snap.ts `chooseSnap`: keep the
in-threshold pair with the strictly smallest absolute delta, first wins. -/
def considerTarget (threshold : ℚ) (pos : SnapPos) (best : Option SnapBest)
    (target : SnapTarget) : Option SnapBest :=
  let delta := target.value - pos.value
  if |delta| ≤ threshold then
    match best with
    | none => some ⟨pos.key, delta, target.kind⟩
    | some b =>
      if |delta| < |b.delta| then some ⟨pos.key, delta, target.kind⟩ else some b
  else best

/-- src/ui/snap.ts: `chooseSnap(positions, targets, threshold)`. -/
def chooseSnap (positions : List SnapPos) (targets : List SnapTarget)
    (threshold : ℚ) : Option SnapBest :=
  positions.foldl (fun best pos => targets.foldl (considerTarget threshold pos) best) none

/-- src/ui/snap.ts: `snapRect(rect, bounds, threshold, mode, handle?)`. -/
def snapRect (rect bounds : Rect) (threshold : ℚ) (mode : SnapMode)
    (handle : Option Handle) : SnapResult :=
  let x := rect.x
  let y := rect.y
  let w := rect.w
  let h := rect.h
  let left := x
  let right := x + w
  let top := y
  let bottom := y + h
  let centerX := x + w / 2
  let centerY := y + h / 2
  let xTargets := makeTargets bounds.w bounds.x
  let yTargets := makeTargets bounds.h bounds.y
  let activeX : List SnapPos :=
    match mode, handle with
    | .move, _ => [⟨"left", left⟩, ⟨"centerX", centerX⟩, ⟨"right", right⟩]
    | .resize, some hd =>
      (if handleHas hd .w then [⟨"left", left⟩] else []) ++
        (if handleHas hd .e then [⟨"right", right⟩] else [])
    | .resize, none => []
  let activeY : List SnapPos :=
    match mode, handle with
    | .move, _ => [⟨"top", top⟩, ⟨"centerY", centerY⟩, ⟨"bottom", bottom⟩]
    | .resize, some hd =>
      (if handleHas hd .n then [⟨"top", top⟩] else []) ++
        (if handleHas hd .s then [⟨"bottom", bottom⟩] else [])
    | .resize, none => []
  let xSnap := chooseSnap activeX xTargets threshold
  let ySnap := chooseSnap activeY yTargets threshold
  let gx : List Guide :=
    match xSnap with
    | some s =>
      [⟨.x, s.delta + (if s.key = "left" then left
          else if s.key = "right" then right else centerX), s.kind⟩]
    | none => []
  let xw : ℚ × ℚ :=
    match xSnap with
    | some s =>
      match mode with
      | .move => (x + s.delta, w)
      | .resize =>
        if s.key = "left" then (x + s.delta, right - (x + s.delta))
        else if s.key = "right" then (x, right + s.delta - x)
        else (x, w)
    | none => (x, w)
  let gy : List Guide :=
    match ySnap with
    | some s =>
      [⟨.y, s.delta + (if s.key = "top" then top
          else if s.key = "bottom" then bottom else centerY), s.kind⟩]
    | none => []
  let yh : ℚ × ℚ :=
    match ySnap with
    | some s =>
      match mode with
      | .move => (y + s.delta, h)
      | .resize =>
        if s.key = "top" then (y + s.delta, bottom - (y + s.delta))
        else if s.key = "bottom" then (y, bottom + s.delta - y)
        else (y, h)
    | none => (y, h)
  { rect := { x := xw.1, y := yh.1, w := xw.2, h := yh.2 }, guides := gx ++ gy }

/-- C10. Move-mode snapping only translates: the returned rect keeps exactly
the width and height of the input rect, for every rect, bounds, threshold
and handle argument. -/
theorem snapRect_move_preserves_size (rect bounds : Rect) (threshold : ℚ)
    (handle : Option Handle) :
    (snapRect rect bounds threshold .move handle).rect.w = rect.w ∧
    (snapRect rect bounds threshold .move handle).rect.h = rect.h := by
  rw [snapRect]
  rcases chooseSnap [⟨"left", rect.x⟩, ⟨"centerX", rect.x + rect.w / 2⟩,
      ⟨"right", rect.x + rect.w⟩] (makeTargets bounds.w bounds.x) threshold with _ | s <;>
    rcases chooseSnap [⟨"top", rect.y⟩, ⟨"centerY", rect.y + rect.h / 2⟩,
      ⟨"bottom", rect.y + rect.h⟩] (makeTargets bounds.h bounds.y) threshold with _ | s2 <;>
    exact ⟨rfl, rfl⟩

/-! ### Adjustment engine (C8), from src/core/adjustments.ts -/

/-- src/core/adjustments.ts: `EPSILON = 0.0001`. -/
def EPSILON : ℚ := 1 / 10000

/-- src/core/adjustments.ts: `isDefaultAdjustments` (fields already present,
so normalization of missing fields is the identity here). -/
def isDefaultAdjustments (adjustments : Adjustments) : Bool :=
  |adjustments.brightness| < EPSILON && |adjustments.contrast| < EPSILON &&
    |adjustments.curve| < EPSILON

/-- src/core/adjustments.ts: `buildCurveLut(amount)`, a 256-entry table.
`Math.exp` is kept abstract as the parameter `rexp`: the claims under test
do not depend on its values, only on where the table is applied. -/
def buildCurveLut (rexp : ℚ → ℚ) (amount : ℚ) : List ℚ :=
  let a := clamp amount (-1) 1 * 8
  if |a| < EPSILON then (List.range 256).map (fun i => (i : ℚ))
  else
    let lo := 1 / (1 + rexp (a / 2))
    let hi := 1 / (1 + rexp (-(a / 2)))
    (List.range 256).map (fun i =>
      let x := (i : ℚ) / 255
      let y := 1 / (1 + rexp (-(a * (x - 1 / 2))))
      let normalized := (y - lo) / (hi - lo)
      (jround (clamp normalized 0 1 * 255) : ℚ))

/-- The per-channel transform of the pixel loop in
src/core/adjustments.ts `applyAdjustmentsToBitmap`: contrast and brightness,
clamp to `[0, 255]`, then either the LUT at the rounded index or plain
rounding. -/
def adjustOne (contrastFactor brightnessShift : ℚ) (lut : Option (List ℚ))
    (v : ℚ) : ℚ :=
  let r := clamp ((v - 128) * contrastFactor + 128 + brightnessShift) 0 255
  match lut with
  | some l => l.getD (jround r).toNat 0
  | none => (jround r : ℚ)

/-- The stride-4 pixel loop of `applyAdjustmentsToBitmap`: each RGBA group
has its first three entries transformed and its fourth kept. -/
def adjustLoop (contrastFactor brightnessShift : ℚ) (lut : Option (List ℚ)) :
    List ℚ → List ℚ
  | r :: g :: b :: a :: rest =>
    adjustOne contrastFactor brightnessShift lut r ::
      adjustOne contrastFactor brightnessShift lut g ::
        adjustOne contrastFactor brightnessShift lut b :: a ::
          adjustLoop contrastFactor brightnessShift lut rest
  | rest => rest

/-- The curve-LUT decision of src/core/adjustments.ts line 78:
`Math.abs(curve) > EPSILON ? buildCurveLut(curve) : null`. -/
def curveLut (rexp : ℚ → ℚ) (curve : ℚ) : Option (List ℚ) :=
  if EPSILON < |curve| then some (buildCurveLut rexp curve) else none

/-- src/core/adjustments.ts: `applyAdjustmentsToBitmap(image, adjustments)`
on the pixel data (the canvas round-trip copies pixels unchanged; drawing
and re-encoding are identity on the byte array). -/
def applyAdjustmentsToBitmap (rexp : ℚ → ℚ) (adjustments : Adjustments)
    (pixels : List ℚ) : List ℚ :=
  let brightness := clamp adjustments.brightness (-1) 1
  let contrast := clamp adjustments.contrast (-1) 1
  let curve := clamp adjustments.curve (-1) 1
  let brightnessShift := brightness * 255
  let contrastFactor := 1 + contrast
  let lut := curveLut rexp curve
  adjustLoop contrastFactor brightnessShift lut pixels

/-- The loop is the per-channel map at every index: positions `4k`, `4k+1`
and `4k+2` are transformed, position `4k+3` is returned untouched. -/
lemma adjustLoop_getD (contrastFactor brightnessShift : ℚ) (lut : Option (List ℚ)) :
    ∀ (k : ℕ) (pixels : List ℚ), 4 * k + 3 < pixels.length →
      ((adjustLoop contrastFactor brightnessShift lut pixels).getD (4 * k) 0 =
        adjustOne contrastFactor brightnessShift lut (pixels.getD (4 * k) 0)) ∧
      ((adjustLoop contrastFactor brightnessShift lut pixels).getD (4 * k + 1) 0 =
        adjustOne contrastFactor brightnessShift lut (pixels.getD (4 * k + 1) 0)) ∧
      ((adjustLoop contrastFactor brightnessShift lut pixels).getD (4 * k + 2) 0 =
        adjustOne contrastFactor brightnessShift lut (pixels.getD (4 * k + 2) 0)) ∧
      ((adjustLoop contrastFactor brightnessShift lut pixels).getD (4 * k + 3) 0 =
        pixels.getD (4 * k + 3) 0) := by
  intro k
  induction k with
  | zero =>
    intro pixels h
    match pixels with
    | [] => simp at h
    | [r] => simp at h
    | [r, g] => simp at h
    | [r, g, b] => simp at h
    | r :: g :: b :: a :: rest =>
      simp [adjustLoop]
  | succ n ih =>
    intro pixels h
    match pixels with
    | [] => simp only [List.length_nil] at h; omega
    | [r] => simp only [List.length_cons, List.length_nil] at h; omega
    | [r, g] => simp only [List.length_cons, List.length_nil] at h; omega
    | [r, g, b] => simp only [List.length_cons, List.length_nil] at h; omega
    | r :: g :: b :: a :: rest =>
      have hlen : 4 * n + 3 < rest.length := by
        simp only [List.length_cons] at h
        omega
      have ihr := ih rest hlen
      have e3 : 4 * (n + 1) + 3 = 4 * n + 3 + 1 + 1 + 1 + 1 := by omega
      have e2 : 4 * (n + 1) + 2 = 4 * n + 2 + 1 + 1 + 1 + 1 := by omega
      have e1 : 4 * (n + 1) + 1 = 4 * n + 1 + 1 + 1 + 1 + 1 := by omega
      have e0 : 4 * (n + 1) = 4 * n + 1 + 1 + 1 + 1 := by omega
      rw [e3, e2, e1, e0]
      simpa [adjustLoop] using ihr

/-- Counterexample to C8 as stated: at curve amount exactly 1e-4 the
adjustments are non-default (`isDefaultAdjustments` uses a strict `<`), yet
the pixel loop builds no curve LUT, because the LUT condition is the strict
`Math.abs(curve) > EPSILON`, not `>=`. -/
theorem applyAdjustments_curve_boundary_cex :
    isDefaultAdjustments ⟨0, 0, 1 / 10000⟩ = false ∧
    curveLut (fun _ => 0) (clamp (1 / 10000) (-1) 1) = none := by
  constructor
  · norm_num [isDefaultAdjustments, EPSILON, abs_of_nonneg]
  · norm_num [curveLut, clamp, EPSILON, abs_of_nonneg]

/-- C8 (amended): `applyAdjustmentsToBitmap` maps each pixel's R, G and B
independently through `clamp((v-128)*(1+contrast) + 128 + brightness*255, 0,
255)` and then, exactly when `|curve| > 1e-4` (strictly, after clamping the
sliders to `[-1, 1]`), through the 256-entry curve LUT at the rounded index,
otherwise plain rounding; the alpha entry of every pixel is unchanged.
Contrast/brightness are applied before the curve, never after: the LUT acts
on the already clamped and shifted value. -/
theorem applyAdjustments_pixelwise (rexp : ℚ → ℚ) (adjustments : Adjustments)
    (pixels : List ℚ) (k : ℕ) (h : 4 * k + 3 < pixels.length) :
    ((applyAdjustmentsToBitmap rexp adjustments pixels).getD (4 * k) 0 =
      adjustOne (1 + clamp adjustments.contrast (-1) 1)
        (clamp adjustments.brightness (-1) 1 * 255)
        (curveLut rexp (clamp adjustments.curve (-1) 1)) (pixels.getD (4 * k) 0)) ∧
    ((applyAdjustmentsToBitmap rexp adjustments pixels).getD (4 * k + 1) 0 =
      adjustOne (1 + clamp adjustments.contrast (-1) 1)
        (clamp adjustments.brightness (-1) 1 * 255)
        (curveLut rexp (clamp adjustments.curve (-1) 1)) (pixels.getD (4 * k + 1) 0)) ∧
    ((applyAdjustmentsToBitmap rexp adjustments pixels).getD (4 * k + 2) 0 =
      adjustOne (1 + clamp adjustments.contrast (-1) 1)
        (clamp adjustments.brightness (-1) 1 * 255)
        (curveLut rexp (clamp adjustments.curve (-1) 1)) (pixels.getD (4 * k + 2) 0)) ∧
    ((applyAdjustmentsToBitmap rexp adjustments pixels).getD (4 * k + 3) 0 =
      pixels.getD (4 * k + 3) 0) :=
  adjustLoop_getD (1 + clamp adjustments.contrast (-1) 1)
    (clamp adjustments.brightness (-1) 1 * 255)
    (curveLut rexp (clamp adjustments.curve (-1) 1)) k pixels h

/-- Concrete run of `applyAdjustments_pixelwise` on the second pixel of an
8-entry RGBA buffer with brightness one half. -/
theorem applyAdjustments_pixelwise_witness :
    ((applyAdjustmentsToBitmap (fun _ => 0) ⟨1 / 2, 0, 0⟩
        [10, 20, 30, 40, 50, 60, 70, 80]).getD (4 * 1) 0 =
      adjustOne (1 + clamp 0 (-1) 1) (clamp (1 / 2) (-1) 1 * 255)
        (curveLut (fun _ => 0) (clamp 0 (-1) 1))
        (([10, 20, 30, 40, 50, 60, 70, 80] : List ℚ).getD (4 * 1) 0)) ∧
    ((applyAdjustmentsToBitmap (fun _ => 0) ⟨1 / 2, 0, 0⟩
        [10, 20, 30, 40, 50, 60, 70, 80]).getD (4 * 1 + 1) 0 =
      adjustOne (1 + clamp 0 (-1) 1) (clamp (1 / 2) (-1) 1 * 255)
        (curveLut (fun _ => 0) (clamp 0 (-1) 1))
        (([10, 20, 30, 40, 50, 60, 70, 80] : List ℚ).getD (4 * 1 + 1) 0)) ∧
    ((applyAdjustmentsToBitmap (fun _ => 0) ⟨1 / 2, 0, 0⟩
        [10, 20, 30, 40, 50, 60, 70, 80]).getD (4 * 1 + 2) 0 =
      adjustOne (1 + clamp 0 (-1) 1) (clamp (1 / 2) (-1) 1 * 255)
        (curveLut (fun _ => 0) (clamp 0 (-1) 1))
        (([10, 20, 30, 40, 50, 60, 70, 80] : List ℚ).getD (4 * 1 + 2) 0)) ∧
    ((applyAdjustmentsToBitmap (fun _ => 0) ⟨1 / 2, 0, 0⟩
        [10, 20, 30, 40, 50, 60, 70, 80]).getD (4 * 1 + 3) 0 =
      ([10, 20, 30, 40, 50, 60, 70, 80] : List ℚ).getD (4 * 1 + 3) 0) :=
  applyAdjustments_pixelwise (fun _ => 0) ⟨1 / 2, 0, 0⟩
    [10, 20, 30, 40, 50, 60, 70, 80] 1 (by norm_num)

/-! ### Export pipeline resource handling (C1), from src/core/transform.ts -/

/-- The fatal errors `exportTransformedImage` can surface: context creation
failure (`Unable to create canvas context`) and encoding failure
(`Export failed`). -/
inductive ExportError where
  | contextFailed | exportFailed
  deriving DecidableEq

/-- The environment a run of `exportTransformedImage` meets: whether the
adjustments are non-default (so an adjusted bitmap is created), whether each
`getContext('2d')` call succeeds (inside `applyAdjustmentsToBitmap`, on the
full canvas, on the crop canvas), whether a crop rect is set, and whether
`toBlob` produces output. -/
structure ExportEnv where
  adjNonDefault : Bool
  adjCtxOk : Bool
  fullCtxOk : Bool
  hasCropRect : Bool
  cropCtxOk : Bool
  encodeOk : Bool
  deriving DecidableEq

/-- What a run of `exportTransformedImage` did: its result, whether the
intermediate adjusted bitmap was created, and whether its `close()` ran. -/
structure ExportOutcome where
  result : Except ExportError Unit
  createdAdjusted : Bool
  closedAdjusted : Bool

/-- Control-flow skeleton of src/core/transform.ts `exportTransformedImage`
(lines 28-87), tracking the adjusted bitmap's lifecycle. In source order:
the adjusted bitmap is created when adjustments are non-default (a context
failure inside `applyAdjustmentsToBitmap` throws before the assignment, so
nothing is created); the full-canvas context check `if (!fullCtx) throw`
runs next; then the crop-canvas check when a crop rect is set; finally
`toBlob` runs inside `try ... finally { adjustedBitmap?.close?.() }`, so
only this last stage closes the bitmap, on success and on encoding failure
alike. The two context throws happen before the `try`, so no `close` runs
on those paths. -/
def exportTransformedImage (env : ExportEnv) : ExportOutcome :=
  if env.adjNonDefault && !env.adjCtxOk then
    { result := .error .contextFailed, createdAdjusted := false, closedAdjusted := false }
  else
    let created := env.adjNonDefault
    if !env.fullCtxOk then
      { result := .error .contextFailed, createdAdjusted := created, closedAdjusted := false }
    else if env.hasCropRect && !env.cropCtxOk then
      { result := .error .contextFailed, createdAdjusted := created, closedAdjusted := false }
    else
      { result := if env.encodeOk then .ok () else .error .exportFailed
        createdAdjusted := created
        closedAdjusted := created }

/-- C1 fails on the code: the adjusted bitmap is closed on encoding success
and on encoding failure (the `finally`), but a canvas-context creation
failure after the bitmap was created throws before the `try`/`finally` and
leaks it — the first two runs below close the bitmap, the third creates it
and exits by the context exception without closing it. -/
theorem exportTransformedImage_close_paths :
    (exportTransformedImage ⟨true, true, true, true, true, true⟩).createdAdjusted = true ∧
    (exportTransformedImage ⟨true, true, true, true, true, true⟩).closedAdjusted = true ∧
    (exportTransformedImage ⟨true, true, true, true, true, false⟩).result =
      .error .exportFailed ∧
    (exportTransformedImage ⟨true, true, true, true, true, false⟩).closedAdjusted = true ∧
    (exportTransformedImage ⟨true, true, false, true, true, true⟩).result =
      .error .contextFailed ∧
    (exportTransformedImage ⟨true, true, false, true, true, true⟩).createdAdjusted = true ∧
    (exportTransformedImage ⟨true, true, false, true, true, true⟩).closedAdjusted = false :=
  ⟨rfl, rfl, rfl, rfl, rfl, rfl, rfl⟩

end Koz
